import Mathlib

set_option maxRecDepth 40000

/-!
Verification development for the ubi_reader UBIFS extraction layer
(`ubireader/ubifs/output.py`) and the `ubireader_list_files` front-end
(`ubireader/scripts/ubireader_list_files.py`).

The Python functions are embedded shallowly:

* `os.path.realpath`, `os.path.join` and `str.startswith` are modelled
  lexically over path strings, with the working directory taken to be the
  filesystem root (symbolic links are not modelled; every input used in the
  theorems below is symlink-free).
* Host filesystem side effects (`mkdir`, `os.link`, `os.mknod`, opening and
  writing a regular file, `os.symlink`, `os.mkfifo`, setting permissions and
  timestamps) become elements of an `Event` trace.
* The code runs under Python 3 (it uses `os.utime(..., follow_symlinks=...)`
  and the fscrypt support of this fork). Consequently `_write_reg_file`
  first opens the path in `wb` mode, creating or truncating the file to
  empty (`Event.truncFile`), and then `f.write(data)` succeeds only when
  `data` is a bytes object; passing a `str` raises `TypeError`. The
  embedding keeps Python values passed to `_write_reg_file` tagged as
  `PyData.bytes` or `PyData.str` to model this.
* `debug.error(obj, level, msg)` becomes an `Event.warnMsg level msg`
  trace element; it never terminates the process for the levels used here.
* The fallible collaborators of `extract_dents` that live outside
  `output.py` (`process_reg_file`, which returns bytes, and
  `decrypt_symlink_target`) are passed in as functions of the inode number
  returning `Except`; an `Except.error` models a raised exception.
* The outcomes of the host calls `os.path.exists`, `os.mkdir` and
  `os.utime` are supplied by a `Host` record (`none` meaning success and
  `some e` a raised exception with message `e`), because `output.py`
  handles their failures in materially different ways: `os.mkdir` failures
  are caught by the directory-branch try, `os.utime` failures are caught
  inside the regular-file and symlink branches but are UNCAUGHT at the
  directory-branch call site (line 89), where they propagate out of
  `extract_dents`. The remaining host calls (`os.link`, `os.mknod`,
  `os.mkfifo`, `os.symlink`, `chown`/`chmod`) all sit inside per-entry try
  blocks and are modelled as non-raising.
* A propagating exception is carried in the `exc` field of the
  `ExtractResult`; the loop over entries stops at the first propagating
  exception, exactly as the Python `for` loops do.
* The Python recursion of `extract_dents` into subdirectories is bounded
  by an explicit fuel parameter; all theorems hold for every fuel value
  that lets the call under scrutiny run at all.
-/

/-! ## Path model: `is_safe_path` and friends -/

def splitOnSlashAux : List Char → List Char → List (List Char)
  | [], cur => [cur.reverse]
  | c :: cs, cur =>
    if c = '/' then cur.reverse :: splitOnSlashAux cs []
    else splitOnSlashAux cs (c :: cur)

def pathComps (s : String) : List (List Char) :=
  splitOnSlashAux s.data []

def resolveComps (comps : List (List Char)) : List (List Char) :=
  comps.foldl
    (fun acc c =>
      if c = [] then acc
      else if c = ['.'] then acc
      else if c = ['.', '.'] then acc.dropLast
      else acc ++ [c]) []

def joinComps : List (List Char) → List Char
  | [] => []
  | [c] => c
  | c :: cs => c ++ '/' :: joinComps cs

/-- Lexical model of `os.path.realpath` with the working directory at the
filesystem root: make the path absolute and resolve `.`, `..` and empty
components. -/
def realpath (s : String) : String :=
  String.mk ('/' :: joinComps (resolveComps (pathComps s)))

/-- Model of Python `s.startswith(pre)`. -/
def strStartsWith (s pre : String) : Bool :=
  pre.data.isPrefixOf s.data

/-- Model of Python `s.endswith(suf)`. -/
def strEndsWith (s suf : String) : Bool :=
  suf.data.isSuffixOf s.data

/-- Model of `os.path.join` for two arguments. -/
def osPathJoin (a b : String) : String :=
  if strStartsWith b "/" then b
  else if a = "" then b
  else if strEndsWith a "/" then a ++ b
  else a ++ "/" ++ b

/-- Embedding of `is_safe_path` from `ubireader/ubifs/output.py`:
resolve `basedir`, resolve `basedir` joined with `path`, and test the result
with `str.startswith`. -/
def is_safe_path (basedir path : String) : Bool :=
  let base := realpath basedir
  let p := realpath (osPathJoin base path)
  strStartsWith p base

/-- A resolved path `p` lies outside the directory `root` when it is neither
`root` itself nor below `root` (below means: `root` followed by a path
separator is a textual prefix of `p`). -/
def pathOutside (root p : String) : Bool :=
  !(p == root) && !(strStartsWith p (root ++ "/"))

/-! ## Data model for `extract_dents` / `extract_files` -/

def UBIFS_ITYPE_REG : Nat := 0
def UBIFS_ITYPE_DIR : Nat := 1
def UBIFS_ITYPE_LNK : Nat := 2
def UBIFS_ITYPE_BLK : Nat := 3
def UBIFS_ITYPE_CHR : Nat := 4
def UBIFS_ITYPE_FIFO : Nat := 5
def UBIFS_ITYPE_SOCK : Nat := 6

/-- Fields of a UBIFS inode node used by `output.py`. -/
structure InoNode where
  mode : Nat
  uid : Nat
  gid : Nat
  nlink : Nat
  atime_sec : Nat
  mtime_sec : Nat
  data : List Nat
deriving DecidableEq

/-- Fields of a UBIFS directory-entry node used by `output.py`. -/
structure DentNode where
  inum : Nat
  name : String
  type : Nat
deriving DecidableEq

/-- One value of the `inodes` dictionary built by the tree walk: the inode
node, the optional list of child directory entries (the `'dent' in inode`
test), and the optional hardlink path (the `'hlink' in inode` test). -/
structure InodeEntry where
  ino : InoNode
  dent : Option (List DentNode)
  hlink : Option String
deriving DecidableEq

/-- The `inodes` dictionary, keyed by inode number. -/
abbrev Inodes := List (Nat × InodeEntry)

def lookupInode (i : Nat) : Inodes → Option InodeEntry
  | [] => none
  | (k, e) :: rest => if k = i then some e else lookupInode i rest

/-- Model of the Python statement `inode['hlink'] = dent_path` on the shared
`inodes` dictionary. -/
def setHlink (inodes : Inodes) (i : Nat) (p : String) : Inodes :=
  inodes.map (fun kv => if kv.1 = i then (kv.1, { kv.2 with hlink := some p }) else kv)

/-- The ambient `ubireader.settings` flags read by the modelled code. -/
structure Settings where
  warn_only_block_read_errors : Bool
  ignore_block_header_errors : Bool
  uboot_fix : Bool
  use_dummy_devices : Bool
  use_dummy_socket_file : Bool
deriving DecidableEq

def defaultSettings : Settings :=
  { warn_only_block_read_errors := false
    ignore_block_header_errors := false
    uboot_fix := false
    use_dummy_devices := false
    use_dummy_socket_file := false }

/-- Observable actions of `extract_dents` / `extract_files`: host filesystem
side effects and `debug.error` reports. `truncFile p` is the effect of
`open(p, 'wb')` alone: the file at `p` is created, or truncated, to empty.
`writeFile p bs` is a successful `f.write` of the bytes `bs` into that
file. -/
inductive Event where
  | warnMsg (level : String) (msg : String)
  | mkDir (path : String)
  | truncFile (path : String)
  | writeFile (path : String) (data : List Nat)
  | linkFile (target : String) (path : String)
  | symlinkFile (target : String) (path : String)
  | mkNod (path : String) (mode : Nat) (dev : Nat)
  | mkFifo (path : String) (mode : Nat)
  | setPerms (path : String)
  | setTimes (path : String)
deriving DecidableEq

/-- Events emitted by `_set_file_perms` when the `perms` flag is on. -/
def permsEvts (perms : Bool) (p : String) : List Event :=
  if perms then [Event.setPerms p] else []

/-- Model of `struct.unpack('<II', data)[0]`: requires exactly 8 bytes and
returns the first little-endian 32-bit word. -/
def unpackTwoU32 (data : List Nat) : Option Nat :=
  match data with
  | [b0, b1, b2, b3, _, _, _, _] => some (b0 + 256 * b1 + 65536 * b2 + 16777216 * b3)
  | _ => none

/-- A Python value passed to `_write_reg_file`: either a bytes object or a
str. Under Python 3 only bytes can be written to a file opened in `wb`
mode. -/
inductive PyData where
  | bytes (data : List Nat)
  | str (s : String)
deriving DecidableEq

/-- The Python 3 exception message raised by writing a `str` into a binary
file. -/
def TYPE_ERROR_MSG : String := "a bytes-like object is required, not str"

/-- The `struct.error` message raised by `struct.unpack('<II', data)` when
`data` is not exactly 8 bytes. -/
def STRUCT_ERROR_MSG : String := "unpack requires a buffer of 8 bytes"

/-- Embedding of `_write_reg_file` from `ubireader/ubifs/output.py` under
Python 3: `open(path, 'wb')` creates or truncates the file to empty; the
following `f.write(data)` succeeds for bytes and raises `TypeError` for a
str. The result is the emitted events together with the raised exception
message, if any. -/
def write_reg_file (p : String) (data : PyData) : List Event × Option String :=
  match data with
  | PyData.bytes bs => ([Event.truncFile p, Event.writeFile p bs], none)
  | PyData.str _ => ([Event.truncFile p], some TYPE_ERROR_MSG)

/-- Outcomes of the host calls whose failures `output.py` handles in
distinct ways: `os.path.exists`, `os.mkdir` (caught by the directory-branch
try) and `os.utime` (caught in the regular-file and symlink branches,
uncaught at the directory-branch call site). `none` is success, `some e` a
raised exception with message `e`. -/
structure Host where
  pathExists : String → Bool
  mkdirFail : String → Option String
  utimeFail : String → Option String

/-- Result of one `extract_dents` call: the updated `inodes` dictionary, the
trace of emitted events, and the exception propagating out of the call, if
any (only the directory-branch `_set_file_timestamps` at `output.py` line
89, or a child call, can produce one). -/
structure ExtractResult where
  inodes : Inodes
  events : List Event
  exc : Option String
deriving DecidableEq

/-- Shared tail of the regular-file branch try block (`output.py` lines 105
to 108): `_set_file_timestamps`, then `_set_file_perms` when requested. A
raised `os.utime` error is caught by the branch except and reported as a
`FILE Fail` warning, skipping the perms step. -/
def regTailEvts (host : Host) (perms : Bool) (dp : String) (evts : List Event) : List Event :=
  match host.utimeFail dp with
  | some e => evts ++ [Event.warnMsg "Warn" ("FILE Fail: " ++ e)]
  | none => evts ++ Event.setTimes dp :: permsEvts perms dp

/-- Embedding of `extract_dents` from `ubireader/ubifs/output.py`.

`proc i` models `process_reg_file` for inode `i` (its reassembled body as
bytes, or a raised exception), `decSym i` models `decrypt_symlink_target`,
and `host` supplies the outcomes of `os.path.exists`, `os.mkdir` and
`os.utime`. Fuel `0` models a recursion budget that has run out and performs
nothing. The directory branch runs `_set_file_timestamps` outside its try
(line 89), so a failure there, or one propagating from a child, aborts the
enclosing loops through the `exc` field. -/
def extract_dents (st : Settings) (proc : Nat → Except String (List Nat))
    (decSym : Nat → Except String String) (host : Host) :
    Nat → Inodes → DentNode → String → Bool → ExtractResult
  | 0, inodes, _, _, _ => ⟨inodes, [], none⟩
  | fuel + 1, inodes, dent_node, path, perms =>
    match lookupInode dent_node.inum inodes with
    | none =>
      ⟨inodes, [Event.warnMsg "Error"
        ("inum: " ++ toString dent_node.inum ++ " not found in inodes")], none⟩
    | some inode =>
      if is_safe_path path dent_node.name = false then
        ⟨inodes, [Event.warnMsg "Warn"
          ("Path traversal attempt: " ++ dent_node.name ++ ", discarding.")], none⟩
      else
        let dent_path := realpath (osPathJoin path dent_node.name)
        if dent_node.type = UBIFS_ITYPE_DIR then
          let mkEvts :=
            if host.pathExists dent_path then []
            else
              match host.mkdirFail dent_path with
              | some e => [Event.warnMsg "Warn" ("DIR Fail: " ++ e)]
              | none => Event.mkDir dent_path :: permsEvts perms dent_path
          let sub := (inode.dent.getD []).foldl
            (fun (acc : ExtractResult) d =>
              match acc.exc with
              | some _ => acc
              | none =>
                let r := extract_dents st proc decSym host fuel acc.inodes d dent_path perms
                ⟨r.inodes, acc.events ++ r.events, r.exc⟩)
            ⟨inodes, [], none⟩
          match sub.exc with
          | some e => ⟨sub.inodes, mkEvts ++ sub.events, some e⟩
          | none =>
            match host.utimeFail dent_path with
            | some e => ⟨sub.inodes, mkEvts ++ sub.events, some e⟩
            | none => ⟨sub.inodes, mkEvts ++ sub.events ++ [Event.setTimes dent_path], none⟩
        else if dent_node.type = UBIFS_ITYPE_REG then
          if 1 < inode.ino.nlink then
            match inode.hlink with
            | none =>
              let inodes' := setHlink inodes dent_node.inum dent_path
              match proc dent_node.inum with
              | Except.ok buf =>
                let w := write_reg_file dent_path (PyData.bytes buf)
                match w.2 with
                | some e => ⟨inodes', w.1 ++ [Event.warnMsg "Warn" ("FILE Fail: " ++ e)], none⟩
                | none => ⟨inodes', regTailEvts host perms dent_path w.1, none⟩
              | Except.error e =>
                ⟨inodes', [Event.warnMsg "Warn" ("FILE Fail: " ++ e)], none⟩
            | some hl =>
              ⟨inodes, regTailEvts host perms dent_path [Event.linkFile hl dent_path], none⟩
          else
            match proc dent_node.inum with
            | Except.ok buf =>
              let w := write_reg_file dent_path (PyData.bytes buf)
              match w.2 with
              | some e => ⟨inodes, w.1 ++ [Event.warnMsg "Warn" ("FILE Fail: " ++ e)], none⟩
              | none => ⟨inodes, regTailEvts host perms dent_path w.1, none⟩
            | Except.error e =>
              ⟨inodes, [Event.warnMsg "Warn" ("FILE Fail: " ++ e)], none⟩
        else if dent_node.type = UBIFS_ITYPE_LNK then
          match decSym dent_node.inum with
          | Except.ok target =>
            match host.utimeFail dent_path with
            | some e =>
              ⟨inodes, [Event.symlinkFile target dent_path,
                Event.warnMsg "Warn" ("SYMLINK Fail: " ++ e)], none⟩
            | none =>
              ⟨inodes, [Event.symlinkFile target dent_path, Event.setTimes dent_path], none⟩
          | Except.error e =>
            ⟨inodes, [Event.warnMsg "Warn" ("SYMLINK Fail: " ++ e)], none⟩
        else if dent_node.type = UBIFS_ITYPE_BLK ∨ dent_node.type = UBIFS_ITYPE_CHR then
          match unpackTwoU32 inode.ino.data with
          | none => ⟨inodes, [Event.warnMsg "Warn" ("DEV Fail: " ++ STRUCT_ERROR_MSG)], none⟩
          | some dev =>
            if st.use_dummy_devices = false then
              ⟨inodes, Event.mkNod dent_path inode.ino.mode dev :: permsEvts perms dent_path, none⟩
            else
              let w := write_reg_file dent_path (PyData.str (toString dev))
              match w.2 with
              | some e => ⟨inodes, w.1 ++ [Event.warnMsg "Warn" ("DEV Fail: " ++ e)], none⟩
              | none => ⟨inodes, w.1 ++ permsEvts perms dent_path, none⟩
        else if dent_node.type = UBIFS_ITYPE_FIFO then
          ⟨inodes, Event.mkFifo dent_path inode.ino.mode :: permsEvts perms dent_path, none⟩
        else if dent_node.type = UBIFS_ITYPE_SOCK then
          if st.use_dummy_socket_file then
            let w := write_reg_file dent_path (PyData.str "")
            match w.2 with
            | some e => ⟨inodes, w.1 ++ [Event.warnMsg "Warn" ("SOCK Fail: " ++ e)], none⟩
            | none => ⟨inodes, w.1 ++ permsEvts perms dent_path, none⟩
          else
            ⟨inodes, [], none⟩
        else
          ⟨inodes, [], none⟩

/-- The loop `for dent in inodes[1]['dent']: extract_dents(...)` of
`extract_files`, threading the mutable `inodes` dictionary through the
successive calls and concatenating the event traces. An exception
propagating out of one call aborts the loop at that entry. -/
def extract_dents_list (st : Settings) (proc : Nat → Except String (List Nat))
    (decSym : Nat → Except String String) (host : Host) (fuel : Nat) :
    Inodes → List DentNode → String → Bool → ExtractResult
  | inodes, [], _, _ => ⟨inodes, [], none⟩
  | inodes, d :: ds, path, perms =>
    let r := extract_dents st proc decSym host fuel inodes d path perms
    match r.exc with
    | some e => ⟨r.inodes, r.events, some e⟩
    | none =>
      let rs := extract_dents_list st proc decSym host fuel r.inodes ds path perms
      ⟨rs.inodes, r.events ++ rs.events, rs.exc⟩

/-- Embedding of `extract_files` from `ubireader/ubifs/output.py`.

`walkResult` is the outcome of
`walk.index(ubifs, master.root_lnum, master.root_offs, inodes, bad_blocks)`:
either a raised exception, or the populated `inodes` dictionary together
with the `bad_blocks` list. Every exception raised inside the surrounding
`try` is reported through `debug.error(extract_files, 'Error', ...)`; an
exception propagating out of the dent loop aborts the loop and skips the
bad-blocks warning. -/
def extract_files (st : Settings) (proc : Nat → Except String (List Nat))
    (decSym : Nat → Except String String) (host : Host) (fuel : Nat)
    (walkResult : Except String (Inodes × List Nat))
    (out_path : String) (perms : Bool) : List Event :=
  match walkResult with
  | Except.error e => [Event.warnMsg "Error" e]
  | Except.ok (inodes, bad_blocks) =>
    if inodes.length < 2 then [Event.warnMsg "Error" "No inodes found"]
    else
      match lookupInode 1 inodes with
      | none => [Event.warnMsg "Error" "KeyError: 1"]
      | some root =>
        match root.dent with
        | none => [Event.warnMsg "Error" "KeyError: dent"]
        | some dents =>
          let r := extract_dents_list st proc decSym host fuel inodes dents out_path perms
          match r.exc with
          | some e => r.events ++ [Event.warnMsg "Error" e]
          | none =>
            r.events ++
              (if bad_blocks.length ≠ 0 then
                [Event.warnMsg "Warn" "Data may be missing or corrupted, bad blocks"]
              else [])

/-! ## Event counting helpers -/

def isWriteEvt : Event → Bool
  | Event.writeFile _ _ => true
  | _ => false

def isLinkEvt : Event → Bool
  | Event.linkFile _ _ => true
  | _ => false

def isLinkToEvt (t : String) : Event → Bool
  | Event.linkFile tgt _ => tgt == t
  | _ => false

def countWrites (evts : List Event) : Nat := evts.countP isWriteEvt

def countLinks (evts : List Event) : Nat := evts.countP isLinkEvt

def countLinksTo (t : String) (evts : List Event) : Nat := evts.countP (isLinkToEvt t)

/-! ## Front-end model: `ubireader_list_files.py` argument handling -/

/-- Host filesystem view used by the command-line front end: the size of a
file when it exists (`os.path.exists` / `os.stat(...).st_size`) and its
bytes. -/
structure FileSys where
  size : String → Option Nat
  content : String → List Nat

/-- Python truthiness of an optional string (`if args.master_key:`). -/
def pyTruthyStr : Option String → Bool
  | none => false
  | some s => s != ""

/-- Model of `file.read(n)`. -/
def fileRead (fs : FileSys) (p : String) (n : Nat) : List Nat :=
  (fs.content p).take n

/-- Embedding of the master-key argument handling in `main` of
`ubireader/scripts/ubireader_list_files.py`: an `Except.error` models
`parser.error`, which terminates the program before any decoding. -/
def processMasterKeyArg (fs : FileSys) (masterKeyArg : Option String) :
    Except String (Option (List Nat)) :=
  if pyTruthyStr masterKeyArg then
    let p := masterKeyArg.getD ""
    match fs.size p with
    | none => Except.error "File path does not exist."
    | some sz =>
      if sz ≠ 64 then Except.error "Master key file size is not 64 bytes."
      else Except.ok (some (fileRead fs p 64))
  else
    Except.ok none

def UBI_EC_HDR_MAGIC : List Nat := [85, 66, 73, 35]

def UBIFS_NODE_MAGIC_BYTES : List Nat := [49, 24, 16, 6]

def hasMagicAt (bytes : List Nat) (i : Nat) : Bool :=
  ((bytes.drop i).take 4 == UBI_EC_HDR_MAGIC) ||
    ((bytes.drop i).take 4 == UBIFS_NODE_MAGIC_BYTES)

/-- Modelled from the spec: `guess_start_offset` lives in `ubireader/utils.py`,
which is not part of the sources under review; per the specification it scans
the file from the given offset for the first EC or UBIFS magic. The scan
result defaults to offset 0 when no magic occurs. -/
def guess_start_offset (bytes : List Nat) (offset : Nat) : Nat :=
  ((((List.range bytes.length).filter (fun i => decide (offset ≤ i))).find?
    (hasMagicAt bytes)).getD 0)

/-- Python truthiness of an optional integer (`if args.start_offset:`). -/
def pyTruthyNat : Option Nat → Bool
  | none => false
  | some n => n != 0

/-- Embedding of the start-offset selection in `main` of
`ubireader/scripts/ubireader_list_files.py` (lines 120 to 125). -/
def computeStartOffset (bytes : List Nat) (startOffsetArg guessOffsetArg : Option Nat) : Nat :=
  if pyTruthyNat startOffsetArg then startOffsetArg.getD 0
  else if pyTruthyNat guessOffsetArg then guess_start_offset bytes (guessOffsetArg.getD 0)
  else guess_start_offset bytes 0

/-! ## Concrete fixtures used by witnesses and counterexamples -/

def wInoNlink1 : InoNode :=
  { mode := 0, uid := 0, gid := 0, nlink := 1, atime_sec := 0, mtime_sec := 0, data := [] }

def wInoNlink2 : InoNode :=
  { wInoNlink1 with nlink := 2 }

def wInoDev : InoNode :=
  { wInoNlink1 with mode := 8630, data := [1, 2, 0, 0, 0, 0, 0, 0] }

def wEntReg1 : InodeEntry := { ino := wInoNlink1, dent := none, hlink := none }

def wEntReg2 : InodeEntry := { ino := wInoNlink2, dent := none, hlink := none }

def wEntDev : InodeEntry := { ino := wInoDev, dent := none, hlink := none }

def wProcOk : Nat → Except String (List Nat) := fun _ => Except.ok [88]

def wDecSym : Nat → Except String String := fun _ => Except.error "nokey"

/-- A host on which every modelled call succeeds and no target path exists
yet. -/
def wHost : Host :=
  { pathExists := fun _ => false
    mkdirFail := fun _ => none
    utimeFail := fun _ => none }

def stDummyDev : Settings := { defaultSettings with use_dummy_devices := true }

def stDummySock : Settings := { defaultSettings with use_dummy_socket_file := true }

def wInodesA : Inodes := [(7, wEntReg2)]

def wDentsA : List DentNode := [⟨7, "a", UBIFS_ITYPE_REG⟩, ⟨7, "b", UBIFS_ITYPE_REG⟩]

def wInodesB : Inodes := [(8, wEntReg1)]

def wDentsB : List DentNode := [⟨8, "a", UBIFS_ITYPE_REG⟩, ⟨8, "b", UBIFS_ITYPE_REG⟩]

def wInodesDev : Inodes := [(3, wEntDev)]

def wFS : FileSys :=
  { size := fun q => if q = "keyfile" then some 64 else none
    content := fun q => if q = "keyfile" then List.replicate 64 7 else [] }

/-! ## Helper lemmas about the `extract_dents` branches -/

lemma extract_dents_first_write (st : Settings) (proc : Nat → Except String (List Nat))
    (decSym : Nat → Except String String) (host : Host)
    (fuel : Nat) (inodes : Inodes) (d : DentNode)
    (path : String) (perms : Bool) (ent : InodeEntry) (buf : List Nat)
    (hent : lookupInode d.inum inodes = some ent)
    (hsafe : is_safe_path path d.name = true)
    (ht : d.type = UBIFS_ITYPE_REG)
    (hn : 1 < ent.ino.nlink)
    (hh : ent.hlink = none)
    (hp : proc d.inum = Except.ok buf) :
    extract_dents st proc decSym host (fuel + 1) inodes d path perms =
      ⟨setHlink inodes d.inum (realpath (osPathJoin path d.name)),
        regTailEvts host perms (realpath (osPathJoin path d.name))
          [Event.truncFile (realpath (osPathJoin path d.name)),
            Event.writeFile (realpath (osPathJoin path d.name)) buf], none⟩ := by
  simp [extract_dents, write_reg_file, hent, hsafe, ht, hn, hh, hp,
    UBIFS_ITYPE_REG, UBIFS_ITYPE_DIR]

lemma extract_dents_link_step (st : Settings) (proc : Nat → Except String (List Nat))
    (decSym : Nat → Except String String) (host : Host)
    (fuel : Nat) (inodes : Inodes) (d : DentNode)
    (path : String) (perms : Bool) (ent : InodeEntry) (hl : String)
    (hent : lookupInode d.inum inodes = some ent)
    (hsafe : is_safe_path path d.name = true)
    (ht : d.type = UBIFS_ITYPE_REG)
    (hn : 1 < ent.ino.nlink)
    (hh : ent.hlink = some hl) :
    extract_dents st proc decSym host (fuel + 1) inodes d path perms =
      ⟨inodes,
        regTailEvts host perms (realpath (osPathJoin path d.name))
          [Event.linkFile hl (realpath (osPathJoin path d.name))], none⟩ := by
  simp [extract_dents, hent, hsafe, ht, hn, hh, UBIFS_ITYPE_REG, UBIFS_ITYPE_DIR]

lemma extract_dents_plain_write (st : Settings) (proc : Nat → Except String (List Nat))
    (decSym : Nat → Except String String) (host : Host)
    (fuel : Nat) (inodes : Inodes) (d : DentNode)
    (path : String) (perms : Bool) (ent : InodeEntry) (buf : List Nat)
    (hent : lookupInode d.inum inodes = some ent)
    (hsafe : is_safe_path path d.name = true)
    (ht : d.type = UBIFS_ITYPE_REG)
    (hn : ent.ino.nlink ≤ 1)
    (hp : proc d.inum = Except.ok buf) :
    extract_dents st proc decSym host (fuel + 1) inodes d path perms =
      ⟨inodes,
        regTailEvts host perms (realpath (osPathJoin path d.name))
          [Event.truncFile (realpath (osPathJoin path d.name)),
            Event.writeFile (realpath (osPathJoin path d.name)) buf], none⟩ := by
  have hn' : ¬ 1 < ent.ino.nlink := by omega
  simp [extract_dents, write_reg_file, hent, hsafe, ht, hn', hp,
    UBIFS_ITYPE_REG, UBIFS_ITYPE_DIR]

lemma countWrites_append (a b : List Event) :
    countWrites (a ++ b) = countWrites a + countWrites b := by
  simp [countWrites, List.countP_append]

lemma countLinks_append (a b : List Event) :
    countLinks (a ++ b) = countLinks a + countLinks b := by
  simp [countLinks, List.countP_append]

lemma countLinksTo_append (t : String) (a b : List Event) :
    countLinksTo t (a ++ b) = countLinksTo t a + countLinksTo t b := by
  simp [countLinksTo, List.countP_append]

lemma counts_regTailEvts (host : Host) (perms : Bool) (dp t : String) (evts : List Event) :
    countWrites (regTailEvts host perms dp evts) = countWrites evts ∧
    countLinks (regTailEvts host perms dp evts) = countLinks evts ∧
    countLinksTo t (regTailEvts host perms dp evts) = countLinksTo t evts := by
  unfold regTailEvts
  cases host.utimeFail dp <;> cases perms <;>
    simp [permsEvts, countWrites, countLinks, countLinksTo, List.countP_append,
      List.countP_cons, isWriteEvt, isLinkEvt, isLinkToEvt]

lemma counts_write_pair (t dp : String) (buf : List Nat) :
    countWrites [Event.truncFile dp, Event.writeFile dp buf] = 1 ∧
    countLinks [Event.truncFile dp, Event.writeFile dp buf] = 0 ∧
    countLinksTo t [Event.truncFile dp, Event.writeFile dp buf] = 0 := by
  simp [countWrites, countLinks, countLinksTo, List.countP_cons,
    isWriteEvt, isLinkEvt, isLinkToEvt]

lemma counts_link_single (hl dp : String) :
    countWrites [Event.linkFile hl dp] = 0 ∧
    countLinks [Event.linkFile hl dp] = 1 ∧
    countLinksTo hl [Event.linkFile hl dp] = 1 := by
  simp [countWrites, countLinks, countLinksTo, List.countP_cons,
    isWriteEvt, isLinkEvt, isLinkToEvt]

lemma lookup_setHlink (inodes : Inodes) (i : Nat) (p : String) :
    lookupInode i (setHlink inodes i p) =
      (lookupInode i inodes).map (fun ent => { ent with hlink := some p }) := by
  induction inodes with
  | nil => rfl
  | cons kv rest ih =>
    rcases kv with ⟨k, ent⟩
    show lookupInode i
        ((if k = i then (k, { ent with hlink := some p }) else (k, ent)) :: setHlink rest i p) = _
    by_cases hk : k = i
    · rw [if_pos hk]
      subst hk
      simp [lookupInode]
    · rw [if_neg hk]
      simp [lookupInode, hk, ih]

lemma extract_dents_list_all_links (st : Settings) (proc : Nat → Except String (List Nat))
    (decSym : Nat → Except String String) (host : Host)
    (fuel : Nat) (i : Nat) (hl : String) (path : String) (perms : Bool) :
    ∀ (dents : List DentNode) (inodes : Inodes) (ent : InodeEntry),
      lookupInode i inodes = some ent → 1 < ent.ino.nlink → ent.hlink = some hl →
      (∀ d ∈ dents, d.inum = i ∧ d.type = UBIFS_ITYPE_REG ∧ is_safe_path path d.name = true) →
      (extract_dents_list st proc decSym host (fuel + 1) inodes dents path perms).inodes = inodes ∧
      countWrites (extract_dents_list st proc decSym host (fuel + 1) inodes dents path perms).events = 0 ∧
      countLinks (extract_dents_list st proc decSym host (fuel + 1) inodes dents path perms).events = dents.length ∧
      countLinksTo hl (extract_dents_list st proc decSym host (fuel + 1) inodes dents path perms).events = dents.length ∧
      (extract_dents_list st proc decSym host (fuel + 1) inodes dents path perms).exc = none := by
  intro dents
  induction dents with
  | nil =>
    intro inodes ent h1 h2 h3 h4
    simp [extract_dents_list, countWrites, countLinks, countLinksTo]
  | cons d ds ih =>
    intro inodes ent h1 h2 h3 h4
    obtain ⟨hdi, hdt, hds⟩ := h4 d (List.mem_cons_self d ds)
    have hent : lookupInode d.inum inodes = some ent := by rw [hdi]; exact h1
    have hstep := extract_dents_link_step st proc decSym host fuel inodes d path perms
      ent hl hent hds hdt h2 h3
    obtain ⟨hs1, hw, hlk, hlt, hex⟩ := ih inodes ent h1 h2 h3
      (fun x hx => h4 x (List.mem_cons_of_mem d hx))
    have htail := counts_regTailEvts host perms (realpath (osPathJoin path d.name)) hl
      [Event.linkFile hl (realpath (osPathJoin path d.name))]
    have hone := counts_link_single hl (realpath (osPathJoin path d.name))
    have e1 : extract_dents_list st proc decSym host (fuel + 1) inodes (d :: ds) path perms =
        ⟨(extract_dents_list st proc decSym host (fuel + 1) inodes ds path perms).inodes,
          regTailEvts host perms (realpath (osPathJoin path d.name))
            [Event.linkFile hl (realpath (osPathJoin path d.name))] ++
            (extract_dents_list st proc decSym host (fuel + 1) inodes ds path perms).events,
          (extract_dents_list st proc decSym host (fuel + 1) inodes ds path perms).exc⟩ := by
      simp [extract_dents_list, hstep]
    rw [e1]
    simp only [countWrites_append, countLinks_append, countLinksTo_append,
      hs1, hw, hlk, hlt, hex, htail.1, htail.2.1, htail.2.2, hone.1, hone.2.1, hone.2.2,
      List.length_cons]
    refine ⟨trivial, trivial, ?_, ?_, trivial⟩ <;> omega

lemma extract_dents_list_all_writes (st : Settings) (proc : Nat → Except String (List Nat))
    (decSym : Nat → Except String String) (host : Host)
    (fuel : Nat) (i : Nat) (t : String) (path : String) (perms : Bool) (buf : List Nat) :
    ∀ (dents : List DentNode) (inodes : Inodes) (ent : InodeEntry),
      lookupInode i inodes = some ent → ent.ino.nlink ≤ 1 →
      proc i = Except.ok buf →
      (∀ d ∈ dents, d.inum = i ∧ d.type = UBIFS_ITYPE_REG ∧ is_safe_path path d.name = true) →
      (extract_dents_list st proc decSym host (fuel + 1) inodes dents path perms).inodes = inodes ∧
      countWrites (extract_dents_list st proc decSym host (fuel + 1) inodes dents path perms).events = dents.length ∧
      countLinks (extract_dents_list st proc decSym host (fuel + 1) inodes dents path perms).events = 0 ∧
      countLinksTo t (extract_dents_list st proc decSym host (fuel + 1) inodes dents path perms).events = 0 ∧
      (extract_dents_list st proc decSym host (fuel + 1) inodes dents path perms).exc = none := by
  intro dents
  induction dents with
  | nil =>
    intro inodes ent h1 h2 hpr h4
    simp [extract_dents_list, countWrites, countLinks, countLinksTo]
  | cons d ds ih =>
    intro inodes ent h1 h2 hpr h4
    obtain ⟨hdi, hdt, hds⟩ := h4 d (List.mem_cons_self d ds)
    have hent : lookupInode d.inum inodes = some ent := by rw [hdi]; exact h1
    have hpd : proc d.inum = Except.ok buf := by rw [hdi]; exact hpr
    have hstep := extract_dents_plain_write st proc decSym host fuel inodes d path perms
      ent buf hent hds hdt h2 hpd
    obtain ⟨hs1, hw, hlk, hlt, hex⟩ := ih inodes ent h1 h2 hpr
      (fun x hx => h4 x (List.mem_cons_of_mem d hx))
    have htail := counts_regTailEvts host perms (realpath (osPathJoin path d.name)) t
      [Event.truncFile (realpath (osPathJoin path d.name)),
        Event.writeFile (realpath (osPathJoin path d.name)) buf]
    have hone := counts_write_pair t (realpath (osPathJoin path d.name)) buf
    have e1 : extract_dents_list st proc decSym host (fuel + 1) inodes (d :: ds) path perms =
        ⟨(extract_dents_list st proc decSym host (fuel + 1) inodes ds path perms).inodes,
          regTailEvts host perms (realpath (osPathJoin path d.name))
            [Event.truncFile (realpath (osPathJoin path d.name)),
              Event.writeFile (realpath (osPathJoin path d.name)) buf] ++
            (extract_dents_list st proc decSym host (fuel + 1) inodes ds path perms).events,
          (extract_dents_list st proc decSym host (fuel + 1) inodes ds path perms).exc⟩ := by
      simp [extract_dents_list, hstep]
    rw [e1]
    simp only [countWrites_append, countLinks_append, countLinksTo_append,
      hs1, hw, hlk, hlt, hex, htail.1, htail.2.1, htail.2.2, hone.1, hone.2.1, hone.2.2,
      List.length_cons]
    refine ⟨trivial, ?_, trivial, trivial, trivial⟩
    omega

/-! ## Claim theorems -/

/-- Claim C1 (code bug). The safety check of `is_safe_path` is a plain
`str.startswith` on the resolved path without a trailing separator, so an
entry name with a `..` component that resolves to a sibling of the
extraction root sharing the root as a textual prefix passes the check and is
extracted outside the root: for root `/tmp/out` and entry name `../out2`,
the resolved path `/tmp/out2` lies outside the root, yet `is_safe_path`
returns `true` and `extract_dents` writes the file body at `/tmp/out2`. -/
theorem is_safe_path_escape_bug :
    pathOutside (realpath "/tmp/out")
      (realpath (osPathJoin (realpath "/tmp/out") "../out2")) = true ∧
    is_safe_path "/tmp/out" "../out2" = true ∧
    extract_dents defaultSettings wProcOk wDecSym wHost 1
        [(5, wEntReg1)] ⟨5, "../out2", UBIFS_ITYPE_REG⟩ "/tmp/out" false =
      ⟨[(5, wEntReg1)],
        [Event.truncFile "/tmp/out2", Event.writeFile "/tmp/out2" [88],
          Event.setTimes "/tmp/out2"], none⟩ := by
  refine ⟨by decide, by decide, by decide⟩

/-- Claim C2. For a regular-file inode with `nlink > 1` referenced by a
nonempty list of directory entries, processing the whole list writes the file
body exactly once (for the first entry) and emits one hardlink back to the
first entry's path for each of the remaining entries; for an inode with
`nlink <= 1` the body is written once per entry and no hardlink is made.
This holds for every host outcome of the timestamp step, since the write and
link events precede it. -/
theorem extract_dents_hardlink_spec
    (st : Settings) (proc : Nat → Except String (List Nat))
    (decSym : Nat → Except String String) (host : Host)
    (fuel : Nat) (inodes : Inodes) (i : Nat) (ent : InodeEntry)
    (dents : List DentNode) (path : String) (perms : Bool) (buf : List Nat)
    (hent : lookupInode i inodes = some ent)
    (hall : ∀ d ∈ dents, d.inum = i ∧ d.type = UBIFS_ITYPE_REG ∧ is_safe_path path d.name = true)
    (hproc : proc i = Except.ok buf)
    (hh : ent.hlink = none) :
    (∀ d₀ rest, dents = d₀ :: rest → 1 < ent.ino.nlink →
      countWrites (extract_dents_list st proc decSym host (fuel + 1) inodes dents path perms).events = 1 ∧
      countLinks (extract_dents_list st proc decSym host (fuel + 1) inodes dents path perms).events =
        dents.length - 1 ∧
      countLinksTo (realpath (osPathJoin path d₀.name))
        (extract_dents_list st proc decSym host (fuel + 1) inodes dents path perms).events =
        dents.length - 1) ∧
    (ent.ino.nlink ≤ 1 →
      countWrites (extract_dents_list st proc decSym host (fuel + 1) inodes dents path perms).events =
        dents.length ∧
      countLinks (extract_dents_list st proc decSym host (fuel + 1) inodes dents path perms).events = 0) := by
  constructor
  · intro d₀ rest hsplit hn
    subst hsplit
    obtain ⟨hdi, hdt, hds⟩ := hall d₀ (List.mem_cons_self d₀ rest)
    have hent₀ : lookupInode d₀.inum inodes = some ent := by rw [hdi]; exact hent
    have hproc₀ : proc d₀.inum = Except.ok buf := by rw [hdi]; exact hproc
    have hstep := extract_dents_first_write st proc decSym host fuel inodes d₀ path perms
      ent buf hent₀ hds hdt hn hh hproc₀
    set dp₀ := realpath (osPathJoin path d₀.name) with hdp
    have hlook : lookupInode i (setHlink inodes d₀.inum dp₀) =
        some { ent with hlink := some dp₀ } := by
      rw [hdi, lookup_setHlink, hent]
      rfl
    have hrest := extract_dents_list_all_links st proc decSym host fuel i dp₀ path perms
      rest (setHlink inodes d₀.inum dp₀) { ent with hlink := some dp₀ } hlook hn rfl
      (fun x hx => hall x (List.mem_cons_of_mem d₀ hx))
    obtain ⟨hs1, hw, hlk, hlt, hex⟩ := hrest
    have htail := counts_regTailEvts host perms dp₀ dp₀
      [Event.truncFile dp₀, Event.writeFile dp₀ buf]
    have hone := counts_write_pair dp₀ dp₀ buf
    have e1 : extract_dents_list st proc decSym host (fuel + 1) inodes (d₀ :: rest) path perms =
        ⟨(extract_dents_list st proc decSym host (fuel + 1) (setHlink inodes d₀.inum dp₀) rest path perms).inodes,
          regTailEvts host perms dp₀ [Event.truncFile dp₀, Event.writeFile dp₀ buf] ++
            (extract_dents_list st proc decSym host (fuel + 1) (setHlink inodes d₀.inum dp₀) rest path perms).events,
          (extract_dents_list st proc decSym host (fuel + 1) (setHlink inodes d₀.inum dp₀) rest path perms).exc⟩ := by
      simp [extract_dents_list, hstep]
    rw [e1]
    simp only [countWrites_append, countLinks_append, countLinksTo_append,
      hw, hlk, hlt, htail.1, htail.2.1, htail.2.2, hone.1, hone.2.1, hone.2.2,
      List.length_cons]
    refine ⟨trivial, ?_, ?_⟩ <;> omega
  · intro hn
    have := extract_dents_list_all_writes st proc decSym host fuel i "" path perms buf
      dents inodes ent hent hn hproc hall
    exact ⟨this.2.1, this.2.2.1⟩

/-- Witness for C2: a 2-entry hardlink set (inode 7, `nlink = 2`) produces
one write and one link to the first path, and a 2-entry set for inode 8 with
`nlink = 1` produces two writes and no link. -/
theorem extract_dents_hardlink_spec_witness :
    (lookupInode 7 wInodesA = some wEntReg2 ∧ wProcOk 7 = Except.ok [88] ∧
      wEntReg2.hlink = none ∧ 1 < wEntReg2.ino.nlink ∧
      lookupInode 8 wInodesB = some wEntReg1 ∧ wEntReg1.ino.nlink ≤ 1) ∧
    (countWrites (extract_dents_list defaultSettings wProcOk wDecSym wHost 1
        wInodesA wDentsA "/out" false).events = 1 ∧
      countLinks (extract_dents_list defaultSettings wProcOk wDecSym wHost 1
        wInodesA wDentsA "/out" false).events = 1 ∧
      countLinksTo "/out/a" (extract_dents_list defaultSettings wProcOk wDecSym wHost 1
        wInodesA wDentsA "/out" false).events = 1) ∧
    (countWrites (extract_dents_list defaultSettings wProcOk wDecSym wHost 1
        wInodesB wDentsB "/out" false).events = 2 ∧
      countLinks (extract_dents_list defaultSettings wProcOk wDecSym wHost 1
        wInodesB wDentsB "/out" false).events = 0) := by
  refine ⟨⟨by decide, rfl, rfl, by decide, by decide, by decide⟩, ?_, ?_⟩
  · exact (extract_dents_hardlink_spec defaultSettings wProcOk wDecSym wHost 0
      wInodesA 7 wEntReg2 wDentsA "/out" false [88] (by decide) (by decide) rfl
      rfl).1 ⟨7, "a", UBIFS_ITYPE_REG⟩ [⟨7, "b", UBIFS_ITYPE_REG⟩] rfl (by decide)
  · exact (extract_dents_hardlink_spec defaultSettings wProcOk wDecSym wHost 0
      wInodesB 8 wEntReg1 wDentsB "/out" false [88] (by decide) (by decide) rfl
      rfl).2 (by decide)

/-- Claim C3. A directory entry whose inode number is absent from the
`inodes` dictionary makes `extract_dents` report the orphan inode through
`debug.error` and return with the dictionary unchanged, no other action
taken and no exception raised. -/
theorem extract_dents_orphan_warning (st : Settings)
    (proc : Nat → Except String (List Nat)) (decSym : Nat → Except String String)
    (host : Host) (fuel : Nat) (inodes : Inodes) (d : DentNode)
    (path : String) (perms : Bool)
    (h : lookupInode d.inum inodes = none) :
    extract_dents st proc decSym host (fuel + 1) inodes d path perms =
      ⟨inodes, [Event.warnMsg "Error" ("inum: " ++ toString d.inum ++ " not found in inodes")],
        none⟩ := by
  simp [extract_dents, h]

/-- Witness for C3: inode number 9 is absent from the empty dictionary and
the entry produces only the orphan report. -/
theorem extract_dents_orphan_warning_witness :
    lookupInode 9 ([] : Inodes) = none ∧
    extract_dents defaultSettings wProcOk wDecSym wHost 1 []
        ⟨9, "x", UBIFS_ITYPE_REG⟩ "/out" false =
      ⟨([] : Inodes), [Event.warnMsg "Error" "inum: 9 not found in inodes"], none⟩ :=
  ⟨rfl, extract_dents_orphan_warning defaultSettings wProcOk wDecSym wHost 0 []
    ⟨9, "x", UBIFS_ITYPE_REG⟩ "/out" false rfl⟩

/-- Claim C5. When the index walk started at the master node root raises, the
exception propagates to the `try` of `extract_files`, which reports it and
extracts nothing, for every settings configuration. -/
theorem extract_files_walk_error_fatal (st : Settings)
    (proc : Nat → Except String (List Nat)) (decSym : Nat → Except String String)
    (host : Host) (fuel : Nat) (e : String) (out_path : String) (perms : Bool) :
    extract_files st proc decSym host fuel (Except.error e) out_path perms =
      [Event.warnMsg "Error" e] := rfl

/-- Claim C6 (code bug). With `use_dummy_devices` set, the dummy regular
file never receives the packed device number: `_write_reg_file(dent_path,
str(dev))` at `output.py` line 136 passes a `str` to a file opened in `wb`
mode, which raises `TypeError` under Python 3; the branch except reports a
`DEV Fail` warning, the file stays empty, and the perms step is skipped. The
theorem evaluates the code at a concrete BLK entry whose inode data packs
device number 513: the trace holds no successful write event at all, only
the empty-file creation and the warning — yet with the option unset the
device node is created with the inode mode and that device number, as the
claim, which clearly states the intended behavior, describes. -/
theorem dummy_device_write_type_error :
    (extract_dents stDummyDev wProcOk wDecSym wHost 1 wInodesDev
        ⟨3, "dev0", UBIFS_ITYPE_BLK⟩ "/out" false =
      ⟨wInodesDev,
        [Event.truncFile "/out/dev0",
          Event.warnMsg "Warn" ("DEV Fail: " ++ TYPE_ERROR_MSG)], none⟩) ∧
    (∀ bs, Event.writeFile "/out/dev0" bs ∉
      (extract_dents stDummyDev wProcOk wDecSym wHost 1 wInodesDev
        ⟨3, "dev0", UBIFS_ITYPE_BLK⟩ "/out" false).events) ∧
    (extract_dents defaultSettings wProcOk wDecSym wHost 1 wInodesDev
        ⟨3, "dev0", UBIFS_ITYPE_BLK⟩ "/out" false =
      ⟨wInodesDev, [Event.mkNod "/out/dev0" 8630 513], none⟩) := by
  have h1 : extract_dents stDummyDev wProcOk wDecSym wHost 1 wInodesDev
      ⟨3, "dev0", UBIFS_ITYPE_BLK⟩ "/out" false =
      ⟨wInodesDev,
        [Event.truncFile "/out/dev0",
          Event.warnMsg "Warn" ("DEV Fail: " ++ TYPE_ERROR_MSG)], none⟩ := by decide
  refine ⟨h1, ?_, by decide⟩
  intro bs
  rw [h1]
  simp

/-- Claim C7. With `use_dummy_socket_file` set, a SOCK entry yields exactly
the creation of an empty regular file at the entry path — the
`open(dent_path, 'wb')` inside `_write_reg_file` — followed by a `SOCK Fail`
warning: under Python 3 the subsequent `f.write('')`, which would have
appended zero bytes, raises `TypeError` and is caught by the branch except,
so the file remains the empty regular file the claim describes and nothing
else is created. With the option unset, no action at all is taken for the
entry. -/
theorem extract_dents_socket_spec (st : Settings)
    (proc : Nat → Except String (List Nat)) (decSym : Nat → Except String String)
    (host : Host) (fuel : Nat) (inodes : Inodes) (d : DentNode)
    (path : String) (perms : Bool) (ent : InodeEntry)
    (hent : lookupInode d.inum inodes = some ent)
    (hsafe : is_safe_path path d.name = true)
    (ht : d.type = UBIFS_ITYPE_SOCK) :
    (st.use_dummy_socket_file = true →
      extract_dents st proc decSym host (fuel + 1) inodes d path perms =
        ⟨inodes,
          [Event.truncFile (realpath (osPathJoin path d.name)),
            Event.warnMsg "Warn" ("SOCK Fail: " ++ TYPE_ERROR_MSG)], none⟩) ∧
    (st.use_dummy_socket_file = false →
      extract_dents st proc decSym host (fuel + 1) inodes d path perms =
        ⟨inodes, [], none⟩) := by
  constructor <;> intro hdum <;>
    simp [extract_dents, write_reg_file, hent, hsafe, ht, hdum, UBIFS_ITYPE_REG,
      UBIFS_ITYPE_DIR, UBIFS_ITYPE_LNK, UBIFS_ITYPE_BLK, UBIFS_ITYPE_CHR,
      UBIFS_ITYPE_FIFO, UBIFS_ITYPE_SOCK]

/-- Witness for C7: a SOCK entry for inode 3 becomes an empty regular file,
plus the Python 3 TypeError warning, under `use_dummy_socket_file`, and
nothing otherwise. -/
theorem extract_dents_socket_spec_witness :
    (lookupInode 3 wInodesDev = some wEntDev ∧ is_safe_path "/out" "sock0" = true) ∧
    extract_dents stDummySock wProcOk wDecSym wHost 1 wInodesDev
        ⟨3, "sock0", UBIFS_ITYPE_SOCK⟩ "/out" false =
      ⟨wInodesDev,
        [Event.truncFile "/out/sock0",
          Event.warnMsg "Warn" ("SOCK Fail: " ++ TYPE_ERROR_MSG)], none⟩ ∧
    extract_dents defaultSettings wProcOk wDecSym wHost 1 wInodesDev
        ⟨3, "sock0", UBIFS_ITYPE_SOCK⟩ "/out" false =
      ⟨wInodesDev, [], none⟩ := by
  refine ⟨by decide, ?_, ?_⟩
  · exact (extract_dents_socket_spec stDummySock wProcOk wDecSym wHost 0 wInodesDev
      ⟨3, "sock0", UBIFS_ITYPE_SOCK⟩ "/out" false wEntDev (by decide) (by decide) rfl).1 rfl
  · exact (extract_dents_socket_spec defaultSettings wProcOk wDecSym wHost 0 wInodesDev
      ⟨3, "sock0", UBIFS_ITYPE_SOCK⟩ "/out" false wEntDev (by decide) (by decide) rfl).2 rfl

/-- Claim C8. With no master-key path the master key is `None`; with a path,
a missing file or a size other than 64 bytes rejects the arguments with an
error before any decoding, and a 64-byte file yields exactly 64 bytes of
master key. -/
theorem master_key_arg_spec (fs : FileSys) (p : String)
    (hp : p ≠ "") (hlen : 64 ≤ (fs.content p).length) :
    processMasterKeyArg fs none = Except.ok none ∧
    (fs.size p = none →
      processMasterKeyArg fs (some p) = Except.error "File path does not exist.") ∧
    (∀ sz, fs.size p = some sz → sz ≠ 64 →
      processMasterKeyArg fs (some p) = Except.error "Master key file size is not 64 bytes.") ∧
    (fs.size p = some 64 →
      processMasterKeyArg fs (some p) = Except.ok (some (fileRead fs p 64)) ∧
      (fileRead fs p 64).length = 64) := by
  have hps : pyTruthyStr (some p) = true := by
    simp [pyTruthyStr, hp]
  refine ⟨rfl, ?_, ?_, ?_⟩
  · intro hsz
    simp [processMasterKeyArg, hps, hsz]
  · intro sz hsz hne
    simp [processMasterKeyArg, hps, hsz, hne]
  · intro hsz
    refine ⟨by simp [processMasterKeyArg, hps, hsz], ?_⟩
    simp [fileRead, List.length_take]
    omega

/-- Witness for C8: a 64-byte key file named `keyfile` is accepted and read
as exactly 64 bytes. -/
theorem master_key_arg_spec_witness :
    ("keyfile" ≠ "" ∧ 64 ≤ (wFS.content "keyfile").length) ∧
    (processMasterKeyArg wFS none = Except.ok none ∧
      (wFS.size "keyfile" = none →
        processMasterKeyArg wFS (some "keyfile") = Except.error "File path does not exist.") ∧
      (∀ sz, wFS.size "keyfile" = some sz → sz ≠ 64 →
        processMasterKeyArg wFS (some "keyfile") =
          Except.error "Master key file size is not 64 bytes.") ∧
      (wFS.size "keyfile" = some 64 →
        processMasterKeyArg wFS (some "keyfile") = Except.ok (some (fileRead wFS "keyfile" 64)) ∧
        (fileRead wFS "keyfile" 64).length = 64)) :=
  ⟨⟨by decide, by decide⟩, master_key_arg_spec wFS "keyfile" (by decide) (by decide)⟩

/-- Counterexample for C9. A user-supplied `start_offset` of 0 is not used:
for a file whose first EC magic sits at offset 4, `--start-offset 0` yields
the scanned offset 4 rather than 0, because `if args.start_offset:` treats 0
as unset. -/
theorem computeStartOffset_zero_ignored_cex :
    computeStartOffset ([0, 0, 0, 0] ++ UBI_EC_HDR_MAGIC) (some 0) none = 4 ∧ (4 : Nat) ≠ 0 := by
  constructor
  · decide
  · decide

/-- Claim C9 (amended). The user-supplied `start_offset` is used whenever it
is set and nonzero; when it is unset or zero, the offset is obtained by
scanning for the first EC or UBIFS magic, starting from `guess_offset` when
that argument is set and nonzero and from the beginning of the file
otherwise. -/
theorem computeStartOffset_spec (bytes : List Nat) (s : Nat) (g : Option Nat) (hs : s ≠ 0) :
    computeStartOffset bytes (some s) g = s ∧
    (∀ gv, gv ≠ 0 →
      computeStartOffset bytes (some 0) (some gv) = guess_start_offset bytes gv ∧
      computeStartOffset bytes none (some gv) = guess_start_offset bytes gv) ∧
    computeStartOffset bytes (some 0) none = guess_start_offset bytes 0 ∧
    computeStartOffset bytes none none = guess_start_offset bytes 0 ∧
    computeStartOffset bytes (some 0) (some 0) = guess_start_offset bytes 0 := by
  refine ⟨?_, ?_, ?_, ?_, ?_⟩
  · simp [computeStartOffset, pyTruthyNat, hs]
  · intro gv hgv
    constructor <;> simp [computeStartOffset, pyTruthyNat, hgv]
  · simp [computeStartOffset, pyTruthyNat]
  · simp [computeStartOffset, pyTruthyNat]
  · simp [computeStartOffset, pyTruthyNat]

/-- Witness for C9: for a file starting with the EC magic, a nonzero
`start_offset` of 7 is used as given, and the unset or zero cases scan. -/
theorem computeStartOffset_spec_witness :
    ((7 : Nat) ≠ 0) ∧
    (computeStartOffset UBI_EC_HDR_MAGIC (some 7) none = 7 ∧
      (∀ gv, gv ≠ 0 →
        computeStartOffset UBI_EC_HDR_MAGIC (some 0) (some gv) =
          guess_start_offset UBI_EC_HDR_MAGIC gv ∧
        computeStartOffset UBI_EC_HDR_MAGIC none (some gv) =
          guess_start_offset UBI_EC_HDR_MAGIC gv) ∧
      computeStartOffset UBI_EC_HDR_MAGIC (some 0) none = guess_start_offset UBI_EC_HDR_MAGIC 0 ∧
      computeStartOffset UBI_EC_HDR_MAGIC none none = guess_start_offset UBI_EC_HDR_MAGIC 0 ∧
      computeStartOffset UBI_EC_HDR_MAGIC (some 0) (some 0) =
        guess_start_offset UBI_EC_HDR_MAGIC 0) :=
  ⟨by decide, computeStartOffset_spec UBI_EC_HDR_MAGIC 7 none (by decide)⟩

/-- Claim C10. When the walk succeeds but leaves fewer than two entries in
the `inodes` dictionary, `extract_files` raises `No inodes found`, reports it
as an error, and produces no other output. -/
theorem extract_files_no_inodes_error (st : Settings)
    (proc : Nat → Except String (List Nat)) (decSym : Nat → Except String String)
    (host : Host) (fuel : Nat) (inodes : Inodes) (bad_blocks : List Nat)
    (out_path : String) (perms : Bool)
    (h : inodes.length < 2) :
    extract_files st proc decSym host fuel (Except.ok (inodes, bad_blocks)) out_path perms =
      [Event.warnMsg "Error" "No inodes found"] := by
  simp [extract_files, h]

/-- Witness for C10: a walk that found only the root inode yields exactly the
`No inodes found` error report. -/
theorem extract_files_no_inodes_error_witness :
    (([(1, wEntReg1)] : Inodes).length < 2) ∧
    extract_files defaultSettings wProcOk wDecSym wHost 0
        (Except.ok ([(1, wEntReg1)], [])) "/out" false =
      [Event.warnMsg "Error" "No inodes found"] :=
  ⟨by decide, extract_files_no_inodes_error defaultSettings wProcOk wDecSym wHost 0
    [(1, wEntReg1)] [] "/out" false (by decide)⟩
